import Mathlib

/-!
Shallow embedding of `cube_torch/cube_file_open_interceptor.py`
(`CubeFileOpenInterceptor`), a cache hit-rate telemetry aggregator.

Python's class-level mutable attributes become an explicit state record;
the static methods `set_params`, `add_count` and `print_hit_rate` become
state-passing functions.  Integer counters are `Nat` (they only ever grow
by increments of 1 or by sums of such counters); preload times, which the
callers pass as Python numbers that may be negative, are `Rat`, and the
true divisions in `print_hit_rate` are `Rat` divisions.
-/

/-- The class-level mutable attributes of `CubeFileOpenInterceptor`. -/
structure InterceptorState where
  cube_root_dir : String
  cube_cache_dir : String
  last_cycle_hit_count : Nat
  last_cycle_miss_count : Nat
  last_cycle_preload_time : Rat
  total_count : Nat
  total_hit_count : Nat
  total_miss_count : Nat
  total_preload_time : Rat
  should_exit : Bool
deriving Repr, DecidableEq

/-- The initial class attribute values (lines 6-15 of the source). -/
def initState : InterceptorState :=
  { cube_root_dir := "/tmp"
    cube_cache_dir := "user memory"
    last_cycle_hit_count := 0
    last_cycle_miss_count := 0
    last_cycle_preload_time := 0
    total_count := 0
    total_hit_count := 0
    total_miss_count := 0
    total_preload_time := 0
    should_exit := false }

/-- `set_params(cube_root_dir)`: assigns the class attribute
`cube_root_dir` and nothing else. -/
def set_params (cube_root_dir : String) (s : InterceptorState) : InterceptorState :=
  { s with cube_root_dir := cube_root_dir }

/-- `add_count(is_cache, preload_time)`: on a hit, increment
`_last_cycle_hit_count` and add `preload_time` to
`_last_cycle_preload_time`; on a miss, increment
`_last_cycle_miss_count` only. -/
def add_count (is_cache : Bool) (preload_time : Rat) (s : InterceptorState) :
    InterceptorState :=
  if is_cache then
    { s with
      last_cycle_hit_count := s.last_cycle_hit_count + 1
      last_cycle_preload_time := s.last_cycle_preload_time + preload_time }
  else
    { s with last_cycle_miss_count := s.last_cycle_miss_count + 1 }

/-- The deterministic fields of the report line built by `print_hit_rate`
(the wall-clock timestamp and the process id are environment inputs and
are not part of the state model). -/
structure Report where
  cube_cache_dir : String
  request_count : Nat
  hit_count : Nat
  miss_count : Nat
  hit_rate : Rat
  miss_rate : Rat
  avg_preload_time : Rat
  total_count : Nat
  total_hit_count : Nat
  total_miss_count : Nat
  total_hit_rate : Rat
  total_miss_rate : Rat
  total_avg_preload_time : Rat
deriving Repr, DecidableEq

/-- `print_hit_rate()`: substitute 1 for a zero cycle request count, add the
cycle counters into the lifetime accumulators, compute cycle and lifetime
rates, build the report line, and zero the cycle counters. -/
def print_hit_rate (s : InterceptorState) : Report × InterceptorState :=
  let request_count0 := s.last_cycle_hit_count + s.last_cycle_miss_count
  let request_count := if request_count0 = 0 then 1 else request_count0
  let total_count := s.total_count + request_count
  let total_hit_count := s.total_hit_count + s.last_cycle_hit_count
  let total_miss_count := s.total_miss_count + s.last_cycle_miss_count
  let total_preload_time := s.total_preload_time + s.last_cycle_preload_time
  let last_cycle_hit_rate := ((s.last_cycle_hit_count : Rat) / request_count) * 100
  let last_cycle_miss_rate := ((s.last_cycle_miss_count : Rat) / request_count) * 100
  let last_cycle_avg_preload_time := s.last_cycle_preload_time / request_count
  let total_hit_rate := ((total_hit_count : Rat) / total_count) * 100
  let total_miss_rate := ((total_miss_count : Rat) / total_count) * 100
  let total_avg_preload_time := total_preload_time / total_count
  let r : Report :=
    { cube_cache_dir := s.cube_cache_dir
      request_count := request_count
      hit_count := s.last_cycle_hit_count
      miss_count := s.last_cycle_miss_count
      hit_rate := last_cycle_hit_rate
      miss_rate := last_cycle_miss_rate
      avg_preload_time := last_cycle_avg_preload_time
      total_count := total_count
      total_hit_count := total_hit_count
      total_miss_count := total_miss_count
      total_hit_rate := total_hit_rate
      total_miss_rate := total_miss_rate
      total_avg_preload_time := total_avg_preload_time }
  let s' : InterceptorState :=
    { s with
      total_count := total_count
      total_hit_count := total_hit_count
      total_miss_count := total_miss_count
      total_preload_time := total_preload_time
      last_cycle_hit_count := 0
      last_cycle_miss_count := 0
      last_cycle_preload_time := 0 }
  (r, s')

/-- Python's `"{:.2f}"` formatting of the nonnegative rationals appearing in
the reports of interest, as the rational with two decimal places nearest to
the argument. -/
def fmt2 (q : Rat) : Rat := (round (q * 100) : Int) / 100

/-- One external call into the aggregator. -/
inductive Event where
  | setParams (cube_root_dir : String)
  | addCount (is_cache : Bool) (preload_time : Rat)
  | flush
deriving Repr, DecidableEq

/-- Apply one call to the state (`print_hit_rate`'s report is discarded
when only the state evolution matters). -/
def step (s : InterceptorState) (e : Event) : InterceptorState :=
  match e with
  | .setParams d => set_params d s
  | .addCount b p => add_count b p s
  | .flush => (print_hit_rate s).2

/-- Run a sequence of calls from a state. -/
def run (s : InterceptorState) (evs : List Event) : InterceptorState :=
  evs.foldl step s

/-- One recorded access: the `is_cache` flag and the preload time passed
to `add_count`. -/
abbrev RecEvent := Bool × Rat

/-- Apply the `add_count` calls of one reporting cycle. -/
def runRecords (s : InterceptorState) (c : List RecEvent) : InterceptorState :=
  c.foldl (fun t r => add_count r.1 r.2 t) s

/-- Apply one reporting cycle: its `add_count` calls, then `print_hit_rate`. -/
def runCycle (s : InterceptorState) (c : List RecEvent) : InterceptorState :=
  (print_hit_rate (runRecords s c)).2

/-- Run `k` reporting cycles from the initial state, where cycle `i` performs
the `add_count` calls listed in `cs[i]` and then flushes. -/
def runCycles (cs : List (List RecEvent)) : InterceptorState :=
  cs.foldl runCycle initState

/-- Number of hits recorded in one cycle's list of accesses. -/
def cycleHits (c : List RecEvent) : Nat := c.countP (fun r => r.1)

/-- Number of misses recorded in one cycle's list of accesses. -/
def cycleMisses (c : List RecEvent) : Nat := c.countP (fun r => !r.1)

/-- Total preload time recorded in one cycle (hits only, per `add_count`). -/
def cyclePreload (c : List RecEvent) : Rat :=
  (c.map (fun r => if r.1 then r.2 else 0)).sum

/-- The four lifetime accumulators of a state, as a tuple. -/
def lifetimeFields (s : InterceptorState) : Nat × Nat × Nat × Rat :=
  (s.total_count, s.total_hit_count, s.total_miss_count, s.total_preload_time)

/-- Componentwise order on the four lifetime accumulators. -/
def lifetimeLE (s t : InterceptorState) : Prop :=
  s.total_count ≤ t.total_count ∧ s.total_hit_count ≤ t.total_hit_count ∧
  s.total_miss_count ≤ t.total_miss_count ∧ s.total_preload_time ≤ t.total_preload_time

/-- Componentwise order on the three integer lifetime accumulators. -/
def natTotalsLE (s t : InterceptorState) : Prop :=
  s.total_count ≤ t.total_count ∧ s.total_hit_count ≤ t.total_hit_count ∧
  s.total_miss_count ≤ t.total_miss_count

/-- The preload argument carried by a call (`0` for calls without one). -/
def eventPreload : Event → Rat
  | .addCount _ p => p
  | _ => 0

/-- All per-cycle counters are zero (holds initially and after every flush). -/
def cycleZero (s : InterceptorState) : Prop :=
  s.last_cycle_hit_count = 0 ∧ s.last_cycle_miss_count = 0 ∧
  s.last_cycle_preload_time = 0

/-- Number of cycles in a cycle-structured execution that contain no
`add_count` call. -/
def emptyCycles (cs : List (List RecEvent)) : Nat :=
  cs.countP (fun c => c.isEmpty)

/-- The flat call trace of a cycle-structured execution: each cycle's
`add_count` calls followed by one `print_hit_rate` call. -/
def cyclesToEvents (cs : List (List RecEvent)) : List Event :=
  (cs.map (fun c => c.map (fun r => Event.addCount r.1 r.2) ++ [Event.flush])).flatten

/-- State reached by the first cycle of the concrete scenario of §8 of the
spec: `configure("cache-A")`, `record(true, 0.5)`, `record(true, 1.5)`,
`record(false, 0)`. -/
def scenarioState1 : InterceptorState :=
  add_count false 0 (add_count true (3/2) (add_count true (1/2)
    (set_params "cache-A" initState)))

/-- Report of the scenario's first flush. -/
def scenarioReport1 : Report := (print_hit_rate scenarioState1).1

/-- State after the scenario's first flush. -/
def scenarioAfter1 : InterceptorState := (print_hit_rate scenarioState1).2

/-- State reached by the scenario's second cycle: `record(true, 1.0)`. -/
def scenarioState2 : InterceptorState := add_count true 1 scenarioAfter1

/-- Report of the scenario's second flush. -/
def scenarioReport2 : Report := (print_hit_rate scenarioState2).1

/-- State after the scenario's second flush. -/
def scenarioAfter2 : InterceptorState := (print_hit_rate scenarioState2).2

theorem runRecords_nil (s : InterceptorState) : runRecords s [] = s := rfl

theorem runRecords_cons (s : InterceptorState) (r : RecEvent) (c : List RecEvent) :
    runRecords s (r :: c) = runRecords (add_count r.1 r.2 s) c := rfl

theorem runRecords_hit (c : List RecEvent) : ∀ s : InterceptorState,
    (runRecords s c).last_cycle_hit_count = s.last_cycle_hit_count + cycleHits c := by
  induction c with
  | nil => intro s; simp [runRecords, cycleHits]
  | cons r c ih =>
    intro s
    rw [runRecords_cons, ih]
    cases hb : r.1 <;> simp [add_count, hb, cycleHits, List.countP_cons] <;> omega

theorem runRecords_miss (c : List RecEvent) : ∀ s : InterceptorState,
    (runRecords s c).last_cycle_miss_count = s.last_cycle_miss_count + cycleMisses c := by
  induction c with
  | nil => intro s; simp [runRecords, cycleMisses]
  | cons r c ih =>
    intro s
    rw [runRecords_cons, ih]
    cases hb : r.1 <;> simp [add_count, hb, cycleMisses, List.countP_cons] <;> omega

theorem runRecords_preload (c : List RecEvent) : ∀ s : InterceptorState,
    (runRecords s c).last_cycle_preload_time =
      s.last_cycle_preload_time + cyclePreload c := by
  induction c with
  | nil => intro s; simp [runRecords, cyclePreload]
  | cons r c ih =>
    intro s
    rw [runRecords_cons, ih]
    cases hb : r.1 <;> simp [add_count, hb, cyclePreload] <;> ring

theorem runRecords_totals (c : List RecEvent) : ∀ s : InterceptorState,
    (runRecords s c).total_count = s.total_count ∧
    (runRecords s c).total_hit_count = s.total_hit_count ∧
    (runRecords s c).total_miss_count = s.total_miss_count ∧
    (runRecords s c).total_preload_time = s.total_preload_time := by
  induction c with
  | nil => intro s; simp [runRecords]
  | cons r c ih =>
    intro s
    rw [runRecords_cons]
    rcases ih (add_count r.1 r.2 s) with ⟨h1, h2, h3, h4⟩
    cases hb : r.1 <;> simp [add_count, hb] at h1 h2 h3 h4 <;> exact ⟨h1, h2, h3, h4⟩

theorem if_zero_eq_max (n : Nat) : (if n = 0 then 1 else n) = max n 1 := by
  split <;> omega

theorem print_hit_rate_state (s : InterceptorState) :
    (print_hit_rate s).2.total_count =
      s.total_count + max (s.last_cycle_hit_count + s.last_cycle_miss_count) 1 ∧
    (print_hit_rate s).2.total_hit_count = s.total_hit_count + s.last_cycle_hit_count ∧
    (print_hit_rate s).2.total_miss_count = s.total_miss_count + s.last_cycle_miss_count ∧
    (print_hit_rate s).2.total_preload_time =
      s.total_preload_time + s.last_cycle_preload_time ∧
    cycleZero (print_hit_rate s).2 := by
  refine ⟨?_, rfl, rfl, rfl, rfl, rfl, rfl⟩
  show s.total_count + _ = _
  rw [if_zero_eq_max]

theorem runCycle_spec (c : List RecEvent) (s : InterceptorState) (hz : cycleZero s) :
    (runCycle s c).total_count = s.total_count + max (cycleHits c + cycleMisses c) 1 ∧
    (runCycle s c).total_hit_count = s.total_hit_count + cycleHits c ∧
    (runCycle s c).total_miss_count = s.total_miss_count + cycleMisses c ∧
    (runCycle s c).total_preload_time = s.total_preload_time + cyclePreload c ∧
    cycleZero (runCycle s c) := by
  rcases hz with ⟨hz1, hz2, hz3⟩
  rcases runRecords_totals c s with ⟨t1, t2, t3, t4⟩
  rcases print_hit_rate_state (runRecords s c) with ⟨p1, p2, p3, p4, p5⟩
  refine ⟨?_, ?_, ?_, ?_, p5⟩
  · rw [show runCycle s c = (print_hit_rate (runRecords s c)).2 from rfl, p1,
      runRecords_hit, runRecords_miss, t1, hz1, hz2]
    simp
  · rw [show runCycle s c = (print_hit_rate (runRecords s c)).2 from rfl, p2,
      runRecords_hit, t2, hz1]
    simp
  · rw [show runCycle s c = (print_hit_rate (runRecords s c)).2 from rfl, p3,
      runRecords_miss, t3, hz2]
    simp
  · rw [show runCycle s c = (print_hit_rate (runRecords s c)).2 from rfl, p4,
      runRecords_preload, t4, hz3]
    simp

theorem foldl_runCycle_spec (cs : List (List RecEvent)) :
    ∀ s : InterceptorState, cycleZero s →
    (cs.foldl runCycle s).total_count =
      s.total_count + (cs.map (fun c => max (cycleHits c + cycleMisses c) 1)).sum ∧
    (cs.foldl runCycle s).total_hit_count =
      s.total_hit_count + (cs.map cycleHits).sum ∧
    (cs.foldl runCycle s).total_miss_count =
      s.total_miss_count + (cs.map cycleMisses).sum ∧
    (cs.foldl runCycle s).total_preload_time =
      s.total_preload_time + (cs.map cyclePreload).sum ∧
    cycleZero (cs.foldl runCycle s) := by
  induction cs with
  | nil => intro s hz; simpa using hz
  | cons c cs ih =>
    intro s hz
    rcases runCycle_spec c s hz with ⟨q1, q2, q3, q4, q5⟩
    rcases ih (runCycle s c) q5 with ⟨f1, f2, f3, f4, f5⟩
    rw [List.foldl_cons] at *
    refine ⟨?_, ?_, ?_, ?_, f5⟩
    · rw [f1, q1]; simp [Nat.add_assoc]
    · rw [f2, q2]; simp [Nat.add_assoc]
    · rw [f3, q3]; simp [Nat.add_assoc]
    · rw [f4, q4]; simp [add_assoc]

theorem cycleZero_initState : cycleZero initState := ⟨rfl, rfl, rfl⟩

theorem runCycles_spec (cs : List (List RecEvent)) :
    (runCycles cs).total_count =
      (cs.map (fun c => max (cycleHits c + cycleMisses c) 1)).sum ∧
    (runCycles cs).total_hit_count = (cs.map cycleHits).sum ∧
    (runCycles cs).total_miss_count = (cs.map cycleMisses).sum ∧
    (runCycles cs).total_preload_time = (cs.map cyclePreload).sum := by
  rcases foldl_runCycle_spec cs initState cycleZero_initState with ⟨f1, f2, f3, f4, -⟩
  exact ⟨by simpa [initState] using f1, by simpa [initState] using f2,
    by simpa [initState] using f3, by simpa [initState] using f4⟩

theorem cycleHits_add_cycleMisses (c : List RecEvent) :
    cycleHits c + cycleMisses c = c.length := by
  induction c with
  | nil => rfl
  | cons r c ih =>
    cases hb : r.1 <;> simp [cycleHits, cycleMisses, List.countP_cons, hb] at * <;> omega

theorem cycleHits_add_cycleMisses_eq_zero (c : List RecEvent) :
    cycleHits c + cycleMisses c = 0 ↔ c = [] := by
  rw [cycleHits_add_cycleMisses, List.length_eq_zero]

theorem sum_map_max_eq (cs : List (List RecEvent)) :
    (cs.map (fun c => max (cycleHits c + cycleMisses c) 1)).sum =
      (cs.map cycleHits).sum + (cs.map cycleMisses).sum + emptyCycles cs := by
  induction cs with
  | nil => rfl
  | cons c cs ih =>
    by_cases hc : c = []
    · subst hc
      have h0 : cycleHits ([] : List RecEvent) = 0 := rfl
      have h1 : cycleMisses ([] : List RecEvent) = 0 := rfl
      have h2 : emptyCycles ([] :: cs) = emptyCycles cs + 1 := by
        simp [emptyCycles, List.countP_cons]
      simp only [List.map_cons, List.sum_cons, h0, h1, h2, ih]
      omega
    · have hlen : 1 ≤ cycleHits c + cycleMisses c := by
        rw [cycleHits_add_cycleMisses]
        exact Nat.one_le_iff_ne_zero.mpr (by simpa using hc)
      have hmax : max (cycleHits c + cycleMisses c) 1 = cycleHits c + cycleMisses c := by
        omega
      have hemp : emptyCycles (c :: cs) = emptyCycles cs := by
        simp [emptyCycles, List.countP_cons, List.isEmpty_iff, hc]
      simp only [List.map_cons, List.sum_cons, hmax, hemp, ih]
      omega

theorem length_le_sum_map_max (cs : List (List RecEvent)) :
    cs.length ≤ (cs.map (fun c => max (cycleHits c + cycleMisses c) 1)).sum := by
  induction cs with
  | nil => simp
  | cons c cs ih =>
    simp only [List.map_cons, List.sum_cons, List.length_cons]
    omega

theorem emptyCycles_eq_zero_iff (cs : List (List RecEvent)) :
    emptyCycles cs = 0 ↔ ∀ c ∈ cs, c ≠ [] := by
  simp [emptyCycles, List.countP_eq_zero, List.isEmpty_iff]

theorem run_append (s : InterceptorState) (a b : List Event) :
    run s (a ++ b) = run (run s a) b := by
  simp [run, List.foldl_append]

theorem run_map_addCount (c : List RecEvent) (s : InterceptorState) :
    run s (c.map (fun r => Event.addCount r.1 r.2)) = runRecords s c := by
  simp only [run, runRecords, List.foldl_map]
  rfl

theorem run_cyclesToEvents (cs : List (List RecEvent)) :
    ∀ s : InterceptorState, run s (cyclesToEvents cs) = cs.foldl runCycle s := by
  induction cs with
  | nil => intro s; rfl
  | cons c cs ih =>
    intro s
    show run s ((c.map (fun r => Event.addCount r.1 r.2) ++ [Event.flush]) ++
      cyclesToEvents cs) = (c :: cs).foldl runCycle s
    rw [run_append, run_append, run_map_addCount]
    show run (step (runRecords s c) Event.flush) (cyclesToEvents cs) = _
    rw [List.foldl_cons, ih]
    rfl

theorem runCycles_eq_run (cs : List (List RecEvent)) :
    runCycles cs = run initState (cyclesToEvents cs) := by
  rw [run_cyclesToEvents]
  rfl

theorem foldl_set_params (ds : List String) : ∀ s : InterceptorState,
    ds.foldl (fun t d => set_params d t) s =
      { s with cube_root_dir := ds.getLastD s.cube_root_dir } := by
  induction ds with
  | nil => intro s; rfl
  | cons d ds ih =>
    intro s
    rw [List.foldl_cons, ih (set_params d s), List.getLastD_cons]
    simp [set_params]

theorem lifetimeLE_refl (s : InterceptorState) : lifetimeLE s s :=
  ⟨le_refl _, le_refl _, le_refl _, le_refl _⟩

theorem lifetimeLE_trans {s t u : InterceptorState}
    (h1 : lifetimeLE s t) (h2 : lifetimeLE t u) : lifetimeLE s u :=
  ⟨le_trans h1.1 h2.1, le_trans h1.2.1 h2.2.1, le_trans h1.2.2.1 h2.2.2.1,
    le_trans h1.2.2.2 h2.2.2.2⟩

theorem step_lifetimeLE (s : InterceptorState) (e : Event)
    (hinv : 0 ≤ s.last_cycle_preload_time) (hp : 0 ≤ eventPreload e) :
    lifetimeLE s (step s e) ∧ 0 ≤ (step s e).last_cycle_preload_time := by
  cases e with
  | setParams d =>
    exact ⟨lifetimeLE_refl s, hinv⟩
  | addCount b p =>
    have hp' : 0 ≤ p := hp
    cases b with
    | true =>
      refine ⟨⟨le_refl _, le_refl _, le_refl _, le_refl _⟩, ?_⟩
      show 0 ≤ s.last_cycle_preload_time + p
      exact add_nonneg hinv hp'
    | false =>
      exact ⟨⟨le_refl _, le_refl _, le_refl _, le_refl _⟩, hinv⟩
  | flush =>
    refine ⟨⟨?_, ?_, ?_, ?_⟩, ?_⟩
    · exact Nat.le_add_right _ _
    · exact Nat.le_add_right _ _
    · exact Nat.le_add_right _ _
    · show s.total_preload_time ≤ s.total_preload_time + s.last_cycle_preload_time
      exact le_add_of_nonneg_right hinv
    · show (0 : Rat) ≤ 0
      exact le_refl _

theorem run_lifetimeLE (l : List Event) : ∀ s : InterceptorState,
    0 ≤ s.last_cycle_preload_time → (∀ e ∈ l, 0 ≤ eventPreload e) →
    lifetimeLE s (run s l) ∧ 0 ≤ (run s l).last_cycle_preload_time := by
  induction l with
  | nil => intro s hinv _; exact ⟨lifetimeLE_refl s, hinv⟩
  | cons e l ih =>
    intro s hinv hp
    have h1 := step_lifetimeLE s e hinv (hp e (List.mem_cons_self e l))
    have h2 := ih (step s e) h1.2 (fun x hx => hp x (List.mem_cons_of_mem e hx))
    exact ⟨lifetimeLE_trans h1.1 h2.1, h2.2⟩

theorem take_prefix_of_take (evs : List Event) (i j : Nat) (hij : i ≤ j) :
    evs.take j = evs.take i ++ (evs.take j).drop i := by
  conv_lhs => rw [← List.take_append_drop i (evs.take j)]
  rw [List.take_take, Nat.min_eq_left hij]

theorem natTotalsLE_refl (s : InterceptorState) : natTotalsLE s s :=
  ⟨le_refl _, le_refl _, le_refl _⟩

theorem natTotalsLE_trans {s t u : InterceptorState}
    (h1 : natTotalsLE s t) (h2 : natTotalsLE t u) : natTotalsLE s u :=
  ⟨le_trans h1.1 h2.1, le_trans h1.2.1 h2.2.1, le_trans h1.2.2 h2.2.2⟩

theorem step_natTotalsLE (s : InterceptorState) (e : Event) :
    natTotalsLE s (step s e) := by
  cases e with
  | setParams d => exact natTotalsLE_refl s
  | addCount b p => cases b <;> exact ⟨le_refl _, le_refl _, le_refl _⟩
  | flush =>
    exact ⟨Nat.le_add_right _ _, Nat.le_add_right _ _, Nat.le_add_right _ _⟩

theorem run_natTotalsLE (l : List Event) : ∀ s : InterceptorState,
    natTotalsLE s (run s l) := by
  induction l with
  | nil => intro s; exact natTotalsLE_refl s
  | cons e l ih =>
    intro s
    exact natTotalsLE_trans (step_natTotalsLE s e) (ih (step s e))

/-- Claim C1, counterexample: flushing a cycle with no `add_count` calls
already breaks `total_count = total_hit_count + total_miss_count` — after
one flush of the initial state, `total_count` is 1 while the hit and miss
totals are both 0. -/
theorem empty_cycle_flush_breaks_invariant :
    (print_hit_rate initState).2.total_count ≠
      (print_hit_rate initState).2.total_hit_count +
        (print_hit_rate initState).2.total_miss_count := by
  decide

/-- Claim C1, amended: after every flush, the lifetime accumulators satisfy
`total_count = total_hit_count + total_miss_count + E` where `E` is the
number of flushed cycles that contained no `add_count` call; the claimed
equality holds exactly for the executions with no empty flushed cycle. -/
theorem total_count_eq_hits_add_misses_add_empty (cs : List (List RecEvent)) :
    (run initState (cyclesToEvents cs)).total_count =
      (run initState (cyclesToEvents cs)).total_hit_count +
        (run initState (cyclesToEvents cs)).total_miss_count + emptyCycles cs := by
  rw [← runCycles_eq_run]
  rcases runCycles_spec cs with ⟨h1, h2, h3, -⟩
  rw [h1, h2, h3, sum_map_max_eq]

/-- Claim C2, counterexample: in the first cycle of the spec's concrete
scenario the reported average preload time is not 1.0 s — the code divides
the cycle preload sum 2.0 by the request count 3, not by the hit count 2. -/
theorem scenario_avg_preload_ne_one : scenarioReport1.avg_preload_time ≠ 1 := by
  norm_num [scenarioReport1, scenarioState1, print_hit_rate, add_count,
    set_params, initState]

/-- Claim C2, amended: the concrete scenario yields cycle request count 3,
hits 2, misses 1, hit rate 66.67%, miss rate 33.33%, and average preload
time 2/3 s (displayed 0.67 s), with lifetime values equal to the cycle
values; the second cycle then yields hits 1, misses 0, hit rate 100%, and
lifetime hits 3, misses 1, requests 4. -/
theorem scenario_values :
    scenarioReport1.request_count = 3 ∧
    scenarioReport1.hit_count = 2 ∧
    scenarioReport1.miss_count = 1 ∧
    scenarioReport1.hit_rate = 200/3 ∧
    fmt2 scenarioReport1.hit_rate = 6667/100 ∧
    scenarioReport1.miss_rate = 100/3 ∧
    fmt2 scenarioReport1.miss_rate = 3333/100 ∧
    scenarioReport1.avg_preload_time = 2/3 ∧
    fmt2 scenarioReport1.avg_preload_time = 67/100 ∧
    scenarioReport1.total_count = 3 ∧
    scenarioReport1.total_hit_count = 2 ∧
    scenarioReport1.total_miss_count = 1 ∧
    scenarioReport1.total_hit_rate = scenarioReport1.hit_rate ∧
    scenarioReport1.total_miss_rate = scenarioReport1.miss_rate ∧
    scenarioReport1.total_avg_preload_time = scenarioReport1.avg_preload_time ∧
    scenarioReport2.hit_count = 1 ∧
    scenarioReport2.miss_count = 0 ∧
    scenarioReport2.hit_rate = 100 ∧
    scenarioAfter2.total_hit_count = 3 ∧
    scenarioAfter2.total_miss_count = 1 ∧
    scenarioAfter2.total_count = 4 := by
  norm_num [scenarioReport1, scenarioReport2, scenarioAfter2, scenarioState2,
    scenarioAfter1, scenarioState1, print_hit_rate, add_count, set_params,
    initState, fmt2, round_eq]

/-- Claim C3, counterexample: a second consecutive flush does change a
lifetime accumulator — it adds the substituted request count 1 to
`total_count`. -/
theorem flush_twice_changes_total_count :
    (print_hit_rate (print_hit_rate initState).2).2.total_count ≠
      (print_hit_rate initState).2.total_count := by
  decide

/-- Claim C3, amended: a second consecutive flush with no intervening
`add_count` leaves `total_hit_count`, `total_miss_count` and
`total_preload_time` unchanged, but increases `total_count` by exactly 1
(the substituted request count of the empty cycle). -/
theorem second_flush_lifetime (s : InterceptorState) :
    (print_hit_rate (print_hit_rate s).2).2.total_hit_count =
      (print_hit_rate s).2.total_hit_count ∧
    (print_hit_rate (print_hit_rate s).2).2.total_miss_count =
      (print_hit_rate s).2.total_miss_count ∧
    (print_hit_rate (print_hit_rate s).2).2.total_preload_time =
      (print_hit_rate s).2.total_preload_time ∧
    (print_hit_rate (print_hit_rate s).2).2.total_count =
      (print_hit_rate s).2.total_count + 1 := by
  simp [print_hit_rate]

/-- Claim C4, counterexample: after `set_params "cache-A"`, the cache
directory field of the next report is still the separate, never-reassigned
`cube_cache_dir` attribute (`"user memory"`), not the configured value. -/
theorem report_cache_dir_ne_configured :
    (print_hit_rate (set_params "cache-A" initState)).1.cube_cache_dir ≠
      "cache-A" := by
  decide

/-- Claim C4, amended: for every sequence of `set_params` calls the last
call wins for `cube_root_dir` and nothing else changes (all counters and
`cube_cache_dir` are untouched), but the cache-directory field of the next
report equals the unrelated `cube_cache_dir` attribute, which `set_params`
never assigns. -/
theorem set_params_last_write_wins (s : InterceptorState) (ds : List String) :
    (ds.foldl (fun t d => set_params d t) s).cube_root_dir =
      ds.getLastD s.cube_root_dir ∧
    (ds.foldl (fun t d => set_params d t) s).cube_cache_dir = s.cube_cache_dir ∧
    (ds.foldl (fun t d => set_params d t) s).last_cycle_hit_count =
      s.last_cycle_hit_count ∧
    (ds.foldl (fun t d => set_params d t) s).last_cycle_miss_count =
      s.last_cycle_miss_count ∧
    (ds.foldl (fun t d => set_params d t) s).last_cycle_preload_time =
      s.last_cycle_preload_time ∧
    lifetimeFields (ds.foldl (fun t d => set_params d t) s) = lifetimeFields s ∧
    (print_hit_rate (ds.foldl (fun t d => set_params d t) s)).1.cube_cache_dir =
      s.cube_cache_dir := by
  rw [foldl_set_params]
  exact ⟨rfl, rfl, rfl, rfl, rfl, rfl, rfl⟩

/-- Claim C5, counterexample: a negative preload time makes
`total_preload_time` decrease at the next flush — after
`add_count(true, -1)` the flush lowers it from 0 to -1. -/
theorem negative_preload_decreases_lifetime :
    (run initState [Event.addCount true (-1), Event.flush]).total_preload_time <
      (run initState [Event.addCount true (-1)]).total_preload_time := by
  norm_num [run, step, print_hit_rate, add_count, initState, List.foldl]

/-- Claim C5, amended: along every execution from the initial state —
negative preload arguments included — `total_count`, `total_hit_count` and
`total_miss_count` are monotonically non-decreasing between any two
prefixes; `total_preload_time` is monotonically non-decreasing provided
every recorded preload time is nonnegative (a negative preload argument can
instead decrease it at the next flush); and the non-flush calls
(`set_params`, `add_count`) never change any lifetime accumulator. -/
theorem lifetime_monotone (evs : List Event) (i j : Nat) (hij : i ≤ j) :
    (run initState (evs.take i)).total_count ≤
      (run initState (evs.take j)).total_count ∧
    (run initState (evs.take i)).total_hit_count ≤
      (run initState (evs.take j)).total_hit_count ∧
    (run initState (evs.take i)).total_miss_count ≤
      (run initState (evs.take j)).total_miss_count ∧
    ((∀ e ∈ evs, 0 ≤ eventPreload e) →
      (run initState (evs.take i)).total_preload_time ≤
        (run initState (evs.take j)).total_preload_time) ∧
    (∀ (s : InterceptorState) (d : String),
      lifetimeFields (step s (Event.setParams d)) = lifetimeFields s) ∧
    (∀ (s : InterceptorState) (b : Bool) (p : Rat),
      lifetimeFields (step s (Event.addCount b p)) = lifetimeFields s) := by
  have hdecomp : run initState (evs.take j) =
      run (run initState (evs.take i)) ((evs.take j).drop i) := by
    conv_lhs => rw [take_prefix_of_take evs i j hij]
    exact run_append _ _ _
  refine ⟨?_, ?_, ?_, ?_, ?_, ?_⟩
  · rw [hdecomp]
    exact (run_natTotalsLE _ _).1
  · rw [hdecomp]
    exact (run_natTotalsLE _ _).2.1
  · rw [hdecomp]
    exact (run_natTotalsLE _ _).2.2
  · intro hp
    have hz : (0 : Rat) ≤ initState.last_cycle_preload_time := by
      norm_num [initState]
    have hmid := run_lifetimeLE (evs.take i) initState hz
      (fun e he => hp e (List.take_subset i evs he))
    have hrest := run_lifetimeLE ((evs.take j).drop i)
      (run initState (evs.take i)) hmid.2
      (fun e he =>
        hp e (List.take_subset j evs (List.drop_subset i (evs.take j) he)))
    rw [hdecomp]
    exact hrest.1.2.2.2
  · intro s d; rfl
  · intro s b p
    cases b <;> simp [lifetimeFields, step, add_count]

/-- Witness for claim C5's amended theorem at the concrete execution
`add_count(true, 1)` then `print_hit_rate`, between prefixes 0 and 2. -/
theorem lifetime_monotone_witness :
    (run initState ([Event.addCount true 1, Event.flush].take 0)).total_count ≤
      (run initState ([Event.addCount true 1, Event.flush].take 2)).total_count ∧
    (run initState
        ([Event.addCount true 1, Event.flush].take 0)).total_hit_count ≤
      (run initState
        ([Event.addCount true 1, Event.flush].take 2)).total_hit_count ∧
    (run initState
        ([Event.addCount true 1, Event.flush].take 0)).total_miss_count ≤
      (run initState
        ([Event.addCount true 1, Event.flush].take 2)).total_miss_count ∧
    ((∀ e ∈ [Event.addCount true 1, Event.flush], 0 ≤ eventPreload e) →
      (run initState
          ([Event.addCount true 1, Event.flush].take 0)).total_preload_time ≤
        (run initState
          ([Event.addCount true 1, Event.flush].take 2)).total_preload_time) ∧
    (∀ (s : InterceptorState) (d : String),
      lifetimeFields (step s (Event.setParams d)) = lifetimeFields s) ∧
    (∀ (s : InterceptorState) (b : Bool) (p : Rat),
      lifetimeFields (step s (Event.addCount b p)) = lifetimeFields s) :=
  lifetime_monotone [Event.addCount true 1, Event.flush] 0 2 (by omega)

/-- Claim C6: for every state and preload value, `add_count(true, p)`
increments `_last_cycle_hit_count` and adds `p` to
`_last_cycle_preload_time` while leaving `_last_cycle_miss_count` and all
lifetime accumulators unchanged; `add_count(false, p)` increments
`_last_cycle_miss_count` only, ignoring `p`; being a total function,
`add_count` never fails. -/
theorem add_count_spec (s : InterceptorState) (p : Rat) :
    (add_count true p s).last_cycle_hit_count = s.last_cycle_hit_count + 1 ∧
    (add_count true p s).last_cycle_preload_time =
      s.last_cycle_preload_time + p ∧
    (add_count true p s).last_cycle_miss_count = s.last_cycle_miss_count ∧
    lifetimeFields (add_count true p s) = lifetimeFields s ∧
    (add_count false p s).last_cycle_miss_count = s.last_cycle_miss_count + 1 ∧
    (add_count false p s).last_cycle_hit_count = s.last_cycle_hit_count ∧
    (add_count false p s).last_cycle_preload_time =
      s.last_cycle_preload_time ∧
    lifetimeFields (add_count false p s) = lifetimeFields s := by
  simp [add_count, lifetimeFields]

/-- Claim C7: immediately after `print_hit_rate` returns, whatever the
sequence of `add_count` calls in the cycle produced, the three per-cycle
counters are all zero — they are reset together by the same flush. -/
theorem print_hit_rate_resets_cycle (s : InterceptorState) :
    (print_hit_rate s).2.last_cycle_hit_count = 0 ∧
    (print_hit_rate s).2.last_cycle_miss_count = 0 ∧
    (print_hit_rate s).2.last_cycle_preload_time = 0 :=
  ⟨rfl, rfl, rfl⟩

/-- Claim C8: `print_hit_rate` never divides by zero: the cycle divisor
`request_count` is `max (hits + misses) 1` (so the displayed
`request_count` field shows the substituted 1 on an empty cycle), and the
lifetime divisor `total_count` used in the lifetime rates is at least 1 at
the point of division; the report is produced for every state. -/
theorem print_hit_rate_no_div_zero (s : InterceptorState) :
    (print_hit_rate s).1.request_count =
      max (s.last_cycle_hit_count + s.last_cycle_miss_count) 1 ∧
    1 ≤ (print_hit_rate s).1.request_count ∧
    1 ≤ (print_hit_rate s).1.total_count ∧
    (print_hit_rate s).2.total_count = (print_hit_rate s).1.total_count ∧
    (s.last_cycle_hit_count + s.last_cycle_miss_count = 0 →
      (print_hit_rate s).1.request_count = 1) := by
  refine ⟨?_, ?_, ?_, rfl, ?_⟩
  · exact if_zero_eq_max _
  · show 1 ≤ if s.last_cycle_hit_count + s.last_cycle_miss_count = 0 then 1
      else s.last_cycle_hit_count + s.last_cycle_miss_count
    split <;> omega
  · show 1 ≤ s.total_count +
      if s.last_cycle_hit_count + s.last_cycle_miss_count = 0 then 1
      else s.last_cycle_hit_count + s.last_cycle_miss_count
    split <;> omega
  · intro h
    show (if s.last_cycle_hit_count + s.last_cycle_miss_count = 0 then 1
      else s.last_cycle_hit_count + s.last_cycle_miss_count) = 1
    simp [h]

/-- Witness for claim C8 at the initial state, whose cycle counters are
zero: the displayed request count is the substituted 1. -/
theorem print_hit_rate_no_div_zero_witness :
    (print_hit_rate initState).1.request_count = 1 :=
  (print_hit_rate_no_div_zero initState).2.2.2.2 rfl

/-- Claim C9: after `k` flushes, the lifetime hit and miss accumulators
equal the sums of the per-cycle hit and miss counts recorded across the
`k` cycles. -/
theorem lifetime_counts_sum_of_cycles (cs : List (List RecEvent)) :
    (runCycles cs).total_hit_count = (cs.map cycleHits).sum ∧
    (runCycles cs).total_miss_count = (cs.map cycleMisses).sum :=
  ⟨(runCycles_spec cs).2.1, (runCycles_spec cs).2.2.1⟩

/-- Claim C10: after `k` flushes, `total_count` equals the sum over the
cycles of `max (hits + misses) 1`; hence it is at least `k`, at least
`total_hit_count + total_miss_count`, and equals the latter exactly when
no flushed cycle was empty. -/
theorem total_count_formula (cs : List (List RecEvent)) :
    (runCycles cs).total_count =
      (cs.map (fun c => max (cycleHits c + cycleMisses c) 1)).sum ∧
    cs.length ≤ (runCycles cs).total_count ∧
    (runCycles cs).total_hit_count + (runCycles cs).total_miss_count ≤
      (runCycles cs).total_count ∧
    ((runCycles cs).total_count =
        (runCycles cs).total_hit_count + (runCycles cs).total_miss_count ↔
      ∀ c ∈ cs, c ≠ []) := by
  rcases runCycles_spec cs with ⟨h1, h2, h3, -⟩
  refine ⟨h1, ?_, ?_, ?_⟩
  · rw [h1]; exact length_le_sum_map_max cs
  · rw [h1, h2, h3, sum_map_max_eq]; omega
  · rw [h1, h2, h3, sum_map_max_eq, ← emptyCycles_eq_zero_iff]
    omega
